import Mathlib

/-!
Shallow embedding of the real-time chat core of the `chatgogo` backend
(session hub, matcher, storage port, session adapters), together with
proofs about the routing, matchmaking, reply-resolution and reputation
logic.  Each definition mirrors one Go function of the repository;
stateful Go code is embedded as explicit state passing over concrete
structures, and fallible storage operations return `Except`.
-/

namespace ChatGoGo

/-- In-memory real-time message (`models.ChatMessage`, realtime.go).
`id` is 0 until the message is saved (Go zero value of `uint`). -/
structure ChatMessage where
  id : Nat
  replyToMessageID : Option Nat
  tgMessageIDSender : Option Nat
  senderID : String
  roomID : String
  content : String
  type : String
  metadata : String
deriving Repr, DecidableEq

/-- A zero-valued message, mirroring Go's zero `models.ChatMessage`. -/
def ChatMessage.zero : ChatMessage :=
  ⟨0, none, none, "", "", "", "", ""⟩

/-- Persisted message row (`models.ChatHistory`, chat_history.go).
`id` is the GORM auto-increment primary key (positive once assigned). -/
structure ChatHistory where
  id : Nat
  roomID : String
  senderID : String
  content : String
  type : String
  metadata : String
  replyToMessageID : Option Nat
  tgMessageIDSender : Option Nat
  tgMessageIDReceiver : Option Nat
deriving Repr, DecidableEq

/-- Chat room row (`models.ChatRoom`).  Times are unix nanoseconds,
matching Go's `time.Time`/`time.Duration` nanosecond resolution. -/
structure ChatRoom where
  roomID : String
  user1ID : String
  user2ID : String
  isActive : Bool
  startedAt : Int
  endedAt : Int
deriving Repr, DecidableEq

/-- Complaint row (`models.Complaint`): only the fields the hub's
dialog-quality heuristic reads (`reported_user_id`, `created_at`). -/
structure Complaint where
  reportedUserID : String
  createdAt : Int
deriving Repr, DecidableEq

/-- User row (`models.User` together with the fields the storage layer
and the matcher read: `ReputationScore`, `BlockedUsers`). -/
structure User where
  id : String
  blockedUsers : List String
  reputationScore : Int
deriving Repr, DecidableEq

/-- The relational store visible to the core: messages, rooms, users and
complaints.  History ids are assigned sequentially (`1, 2, ...`) as the
Postgres serial primary key does. -/
structure DB where
  histories : List ChatHistory
  rooms : List ChatRoom
  users : List User
  complaints : List Complaint
deriving Repr, DecidableEq

def DB.empty : DB := ⟨[], [], [], []⟩

/-! ### Storage port (storage.go) -/

/-- `Service.SaveMessage` (storage.go): builds a `ChatHistory` row from
the message, inserts it (GORM assigns the next serial id) and writes the
assigned id back into the in-memory message.  The returned pair is the
updated store and the updated message. -/
def saveMessage (db : DB) (msg : ChatMessage) : DB × ChatMessage :=
  let newId := db.histories.length + 1
  let history : ChatHistory :=
    { id := newId
      roomID := msg.roomID
      senderID := msg.senderID
      content := msg.content
      type := msg.type
      metadata := msg.metadata
      replyToMessageID := msg.replyToMessageID
      tgMessageIDSender := msg.tgMessageIDSender
      tgMessageIDReceiver := none }
  ({ db with histories := db.histories ++ [history] }, { msg with id := newId })

/-- `Service.GetRoomByID` (storage.go): a missing row is reported as the
error `"chat room not found"`, not as an empty result. -/
def getRoomByID (db : DB) (roomID : String) : Except String ChatRoom :=
  match db.rooms.find? (·.roomID = roomID) with
  | none => .error "chat room not found"
  | some room => .ok room

/-- `Service.GetUserByID` (storage.go): a missing row is reported as the
error `"user not found"`. -/
def getUserByID (db : DB) (userID : String) : Except String User :=
  match db.users.find? (·.id = userID) with
  | none => .error "user not found"
  | some user => .ok user

/-- `Service.GetActiveRoomIDForUser` (storage.go): the first active room
having the user on either side; a missing row yields `("", nil)`. -/
def getActiveRoomIDForUser (db : DB) (userID : String) : Except String String :=
  match db.rooms.find? (fun r => r.isActive ∧ (r.user1ID = userID ∨ r.user2ID = userID)) with
  | none => .ok ""
  | some room => .ok room.roomID

/-- `Service.FindHistoryByID` (storage.go): a missing row yields
`(nil, nil)`. -/
def findHistoryByID (db : DB) (id : Nat) : Except String (Option ChatHistory) :=
  match db.histories.find? (·.id = id) with
  | none => .ok none
  | some h => .ok (some h)

/-- `Service.GetChatHistory` (storage.go): all rows of the room (the
`created_at` ordering is the insertion order of the list model). -/
def getChatHistory (db : DB) (roomID : String) : List ChatHistory :=
  db.histories.filter (·.roomID = roomID)

/-- `Service.GetComplaintsForUser` (storage.go): complaints against the
user filed at or after `since`. -/
def getComplaintsForUser (db : DB) (userID : String) (since : Int) : List Complaint :=
  db.complaints.filter (fun c => c.reportedUserID = userID ∧ c.createdAt ≥ since)

/-- `Service.CloseRoom` (storage.go): sets `is_active = false` and
`ended_at = NOW()` on every row with the given room id. -/
def closeRoom (db : DB) (roomID : String) (now : Int) : DB :=
  { db with rooms := db.rooms.map (fun r =>
      if r.roomID = roomID then { r with isActive := false, endedAt := now } else r) }

/-- `Service.SaveTgMessageID` (storage.go): loads the history row, fills
the sender-side transport id slot when `anonID` is the row's sender and
the receiver-side slot otherwise, and saves the row back (GORM `Save`
updates by primary key). -/
def saveTgMessageID (db : DB) (historyID : Nat) (anonID : String) (tgMsgID : Nat) :
    Except String DB :=
  match db.histories.find? (·.id = historyID) with
  | none => .error "record not found"
  | some h =>
    let h' := if h.senderID = anonID
      then { h with tgMessageIDSender := some tgMsgID }
      else { h with tgMessageIDReceiver := some tgMsgID }
    .ok { db with histories := db.histories.map (fun x => if x.id = historyID then h' else x) }

/-- `Service.FindPartnerTelegramIDForReply` (storage.go): loads the
history row; when the current recipient is the row's original sender it
returns the sender-side transport id, otherwise the receiver-side one. -/
def findPartnerTelegramIDForReply (db : DB) (originalHistoryID : Nat)
    (currentRecipientAnonID : String) : Except String (Option Nat) :=
  match db.histories.find? (·.id = originalHistoryID) with
  | none => .error "record not found"
  | some h =>
    if h.senderID = currentRecipientAnonID then .ok h.tgMessageIDSender
    else .ok h.tgMessageIDReceiver

/-- Two's-complement wrap of Go's 64-bit `int` addition result. -/
def goIntWrap (x : Int) : Int := (x + 2 ^ 63) % 2 ^ 64 - 2 ^ 63

/-- The clamp in `UpdateUserReputation`: `newScore` forced into
`[0, 1000]` by the two conditionals. -/
def goClamp (x : Int) : Int :=
  if x > 1000 then 1000 else if x < 0 then 0 else x

/-- `Service.UpdateUserReputation` (storage.go): reads the user inside a
transaction, adds `change` (Go 64-bit `int` arithmetic), clamps the
result into `[0, 1000]` and updates every row with that id. -/
def updateUserReputation (db : DB) (userID : String) (change : Int) : Except String DB :=
  match db.users.find? (·.id = userID) with
  | none => .error "record not found"
  | some u =>
    let clamped := goClamp (goIntWrap (u.reputationScore + change))
    .ok { db with users := db.users.map (fun x =>
      if x.id = userID then { x with reputationScore := clamped } else x) }

/-! ### Sessions and the hub (chathub package) -/

/-- A Go channel of chat messages (a session's `Send` channel).  The
model keeps the undelivered buffer and whether the channel has been
closed; closing a closed channel is a run-time panic in Go. -/
structure Chan where
  closed : Bool
  buffer : List ChatMessage
deriving Repr, DecidableEq

def Chan.fresh : Chan := ⟨false, []⟩

/-- `close(ch)` in Go: panics (modelled as `Except.error`) when the
channel is already closed. -/
def goCloseChan (c : Chan) : Except Unit Chan :=
  if c.closed then .error () else .ok { c with closed := true }

/-- `ch <- msg` on a session's send channel: append to the buffer. -/
def chanSend (c : Chan) (m : ChatMessage) : Chan :=
  { c with buffer := c.buffer ++ [m] }

/-- A live session object (`WebSocketClient` / telegram `Client`).
`sid` models Go pointer identity, so two sessions of the same user can
be distinguished. -/
structure Session where
  sid : Nat
  userID : String
  roomID : String
  send : Chan
deriving Repr, DecidableEq

/-- `WebSocketClient.Close` (ws_client.go): `close(c.Send)`. -/
def webSocketClientClose (s : Session) : Except Unit Session :=
  match goCloseChan s.send with
  | .error e => .error e
  | .ok ch => .ok { s with send := ch }

/-- Telegram `Client.Close` (tg_client.go): `close(c.Send)`. -/
def telegramClientClose (s : Session) : Except Unit Session :=
  match goCloseChan s.send with
  | .error e => .error e
  | .ok ch => .ok { s with send := ch }

/-- The hub's `Clients` map, keyed by user id. -/
abbrev ClientsMap := List (String × Session)

def lookupClient (cs : ClientsMap) (u : String) : Option Session :=
  (List.find? (·.1 = u) cs).map (·.2)

/-- Mutate the session stored under `u` (sessions are held by pointer in
Go, so an update through the table is an update of the session). -/
def updateClient (cs : ClientsMap) (u : String) (f : Session → Session) : ClientsMap :=
  List.map (fun p => if p.1 = u then (p.1, f p.2) else p) cs

/-- `delete(m.Clients, u)`. -/
def eraseClient (cs : ClientsMap) (u : String) : ClientsMap :=
  List.filter (fun p => ¬ p.1 = u) cs

/-- Enqueue a message on the stored session's send channel. -/
def sendToClient (cs : ClientsMap) (u : String) (m : ChatMessage) : ClientsMap :=
  updateClient cs u (fun s => { s with send := chanSend s.send m })

/-- `ManagerService.handleUnregister` (manager.go): when any session is
stored under the unregistering client's user id, remove that table entry
and close the argument client's send channel.  `none` is a Go panic
(closing an already-closed channel). -/
def handleUnregister (cs : ClientsMap) (c : Session) : Option (ClientsMap × Session) :=
  if (lookupClient cs c.userID).isSome then
    match goCloseChan c.send with
    | .error _ => none
    | .ok ch => some (eraseClient cs c.userID, { c with send := ch })
  else
    some (cs, c)

/-- Effects of one hub event: the updated client table and store, the
frames published on the bus (channel name × payload), the search
requests forwarded to the Matcher, and the reputation updates issued. -/
structure HubResult where
  clients : ClientsMap
  db : DB
  published : List (String × ChatMessage)
  matchRequests : List String
  repUpdates : List (String × Int)
deriving Repr, DecidableEq

/-! ### Dialog-quality configuration (package config) -/

/-- `config.SuccessfulDialogDuration = 10 * time.Minute` (nanoseconds). -/
def successfulDialogDuration : Int := 600000000000

/-- `config.SuccessfulDialogMessages`. -/
def successfulDialogMessages : Nat := 10

/-- `config.SuccessfulDialogReward`. -/
def successfulDialogReward : Int := 1

/-- `config.EarlyDisconnectDuration = 2 * time.Minute` (nanoseconds). -/
def earlyDisconnectDuration : Int := 120000000000

/-- `config.EarlyDisconnectMessages`. -/
def earlyDisconnectMessages : Nat := 2

/-- `config.EarlyDisconnectPenalty`. -/
def earlyDisconnectPenalty : Int := -1

/-- The reputation-update calls made by the tail of
`handleStopCommand`: fetch the room history and both members'
complaints since the room started; with no complaints, reward both
members after a long mutual dialog (`time.Since > duration`, both
counts at least the threshold), or penalise the stop initiator after an
early disconnect in which the partner wrote little.  The Go loop
counting messages per sender is `countP`: a history row counts for
user 1 exactly when its sender is `user1_id`, otherwise for user 2. -/
def dialogQualityUpdates (db : DB) (room : ChatRoom) (now : Int)
    (msg : ChatMessage) : List (String × Int) :=
  if (getComplaintsForUser db room.user1ID room.startedAt).length = 0 ∧
      (getComplaintsForUser db room.user2ID room.startedAt).length = 0 then
    if now - room.startedAt > successfulDialogDuration then
      if (getChatHistory db msg.roomID).countP (·.senderID = room.user1ID) ≥
            successfulDialogMessages ∧
          (getChatHistory db msg.roomID).countP (fun h => ¬ h.senderID = room.user1ID) ≥
            successfulDialogMessages then
        [(room.user1ID, successfulDialogReward), (room.user2ID, successfulDialogReward)]
      else []
    else if now - room.startedAt < earlyDisconnectDuration then
      if (getChatHistory db msg.roomID).countP
            (·.senderID = (if msg.senderID = room.user1ID then room.user2ID else room.user1ID)) <
          earlyDisconnectMessages then
        [(msg.senderID, earlyDisconnectPenalty)]
      else []
    else []
  else []

/-- Apply a list of reputation updates to the store, ignoring failures
(the Go code discards `UpdateUserReputation`'s error). -/
def applyRepUpdates (db : DB) (ups : List (String × Int)) : DB :=
  ups.foldl (fun d u =>
    match updateUserReputation d u.1 u.2 with
    | .error _ => d
    | .ok d' => d') db

/-- The `system_match_stop_partner` notice pushed to the partner in
`handleStopCommand`. -/
def stopPartnerMsg : ChatMessage :=
  { ChatMessage.zero with type := "system_info", content := "system_match_stop_partner" }

/-- The `system_match_stop_self` notice pushed to the stop initiator in
`handleStopCommand`. -/
def stopSelfMsg : ChatMessage :=
  { ChatMessage.zero with type := "system_info", content := "system_match_stop_self" }

/-- First notification block of `handleStopCommand`: if the partner has
a local session, push `stopPartnerMsg` on it and clear its room id. -/
def stopNotifyPartner (cs : ClientsMap) (partnerID : String) : ClientsMap :=
  if (lookupClient cs partnerID).isSome then
    updateClient cs partnerID
      (fun s => { s with send := chanSend s.send stopPartnerMsg, roomID := "" })
  else cs

/-- Second notification block of `handleStopCommand`: if the sender has
a local session, push `stopSelfMsg` on it and clear its room id. -/
def stopNotifySender (cs : ClientsMap) (senderID : String) : ClientsMap :=
  if (lookupClient cs senderID).isSome then
    updateClient cs senderID
      (fun s => { s with send := chanSend s.send stopSelfMsg, roomID := "" })
  else cs

/-- The two local notification blocks of `handleStopCommand`, in source
order: partner first, then the stop initiator. -/
def stopNotifyClients (cs : ClientsMap) (partnerID senderID : String) : ClientsMap :=
  stopNotifySender (stopNotifyPartner cs partnerID) senderID

/-- `ManagerService.handleStopCommand` (chathub manager, draft with the
dialog-quality heuristic): on a stop or next command carrying a room id,
look the room up, push `system_match_stop_partner` to the partner's
local session and clear its room id, push `system_match_stop_self` to
the sender's local session and clear its room id, close the room in the
store, re-queue the sender on `command_next`, then run the
dialog-quality heuristic.  No bus publish happens in this handler. -/
def handleStopCommand (cs : ClientsMap) (db : DB) (now : Int)
    (msg : ChatMessage) : HubResult :=
  if msg.roomID = "" then ⟨cs, db, [], [], []⟩
  else
    match getRoomByID db msg.roomID with
    | .error _ => ⟨cs, db, [], [], []⟩
    | .ok room =>
      let partnerID := if msg.senderID = room.user1ID then room.user2ID else room.user1ID
      let cs2 := stopNotifyClients cs partnerID msg.senderID
      let db1 := closeRoom db msg.roomID now
      let requeue := if msg.type = "command_next" then [msg.senderID] else []
      let ups := dialogQualityUpdates db1 room now msg
      ⟨cs2, applyRepUpdates db1 ups, [], requeue, ups⟩

/-- The `system_search_start` notice pushed to the sender when a search
begins. -/
def searchStartMsg : ChatMessage :=
  { ChatMessage.zero with type := "system_info", content := "system_search_start" }

/-- `ManagerService.handleIncomingMessage` (chathub manager, draft with
stop handling): `command_start` forwards one `SearchRequest` and pushes
a `system_search_start` notice to the sender's local session;
`command_stop`/`command_next` defer to `handleStopCommand`;
`command_report` is handled in the transport layer; every other kind is
saved to the store (`saveOk` models whether the database write
succeeds) and, only after a successful save, published on the room's
bus channel with the store-assigned id. -/
def handleIncomingMessage (cs : ClientsMap) (db : DB) (now : Int)
    (saveOk : Bool) (msg : ChatMessage) : HubResult :=
  if msg.type = "command_start" then
    let cs1 := if (lookupClient cs msg.senderID).isSome then
      sendToClient cs msg.senderID searchStartMsg else cs
    ⟨cs1, db, [], [msg.senderID], []⟩
  else if msg.type = "command_stop" ∨ msg.type = "command_next" then
    handleStopCommand cs db now msg
  else if msg.type = "command_report" then
    ⟨cs, db, [], [], []⟩
  else if saveOk then
    let (db1, saved) := saveMessage db msg
    ⟨cs, db1, [(saved.roomID, saved)], [], []⟩
  else
    ⟨cs, db, [], [], []⟩

/-! ### Matcher (MatcherService.FindMatch) -/

/-- The candidate `FindMatch` selects for `reqUser`: the first queue
member distinct from the requester that neither party has blocked.
`queue` is the matcher's queue in iteration order and `users` the map
built from `GetUsersByIDs` over the queue members. -/
def findMatchCandidate (queue : List String) (users : String → User)
    (reqUser : String) : Option String :=
  queue.find? (fun t =>
    ¬ t = reqUser ∧
    ¬ (users reqUser).blockedUsers.contains t ∧
    ¬ (users t).blockedUsers.contains reqUser)

/-- Effects of `MatcherService.FindMatch` followed by
`createRoomForMatch`: when a candidate is found, a fresh active room
for the pair is saved, both local sessions learn the room id, both
sessions are notified with `system_match_found`, and both users leave
the queue. -/
structure MatchResult where
  queue : List String
  clients : ClientsMap
  db : DB
  roomsCreated : List ChatRoom
deriving Repr, DecidableEq

/-- `MatcherService.FindMatch` (chathub matcher): scan the queue for a
non-self, mutually unblocked candidate and create a room for the first
one found. -/
def findMatch (queue : List String) (users : String → User) (cs : ClientsMap)
    (db : DB) (now : Int) (freshRoomID : String) (reqUser : String) : MatchResult :=
  match findMatchCandidate queue users reqUser with
  | none => ⟨queue, cs, db, []⟩
  | some target =>
    let newRoom : ChatRoom :=
      { roomID := freshRoomID, user1ID := reqUser, user2ID := target,
        isActive := true, startedAt := now, endedAt := 0 }
    let matchMsg : ChatMessage :=
      { ChatMessage.zero with
          roomID := freshRoomID
          content := "system_match_found"
          type := "system_match_found"
          senderID := "system" }
    let cs1 := updateClient cs reqUser (fun s => { s with roomID := freshRoomID })
    let cs2 := updateClient cs1 target (fun s => { s with roomID := freshRoomID })
    let cs3 := sendToClient (sendToClient cs2 reqUser matchMsg) target matchMsg
    ⟨(queue.filter (fun u => ¬ u = reqUser ∧ ¬ u = target)),
      cs3, { db with rooms := db.rooms ++ [newRoom] }, [newRoom]⟩

/-- A concrete store used to exercise the dialog-quality heuristic:
room `r1` between `A` and `B` started at time 0, ten messages from each
side, no complaints. -/
def dialogDB : DB :=
  ⟨List.replicate 10 ⟨1, "r1", "A", "m", "text", "", none, none, none⟩ ++
    List.replicate 10 ⟨2, "r1", "B", "m", "text", "", none, none, none⟩,
    [⟨"r1", "A", "B", true, 0, 0⟩], [⟨"A", [], 500⟩, ⟨"B", [], 500⟩], []⟩

/-- A `command_stop` message from `A` in room `r1`. -/
def stopMsgFromA : ChatMessage :=
  { ChatMessage.zero with type := "command_stop", senderID := "A", roomID := "r1" }

/-- A `command_stop` message from `B` (the room's second member) in
room `r1`. -/
def stopMsgFromB : ChatMessage :=
  { ChatMessage.zero with type := "command_stop", senderID := "B", roomID := "r1" }

/-! ### Helper lemmas -/

/-- `find?` after a conditional in-place update: the first match is the
updated first match, provided updating keeps a matching element
matching. -/
theorem find?_map_update {α : Type} (q : α → Prop) [DecidablePred q] (g : α → α)
    (l : List α) (a : α)
    (h : l.find? (fun x => decide (q x)) = some a) (hg : ∀ x, q x → q (g x)) :
    (l.map (fun x => if q x then g x else x)).find? (fun x => decide (q x)) = some (g a) := by
  induction l with
  | nil => simp [List.find?] at h
  | cons b t ih =>
    simp only [List.map_cons]
    by_cases hb : q b
    · have h1 : List.find? (fun x => decide (q x)) (b :: t) = some b :=
        List.find?_cons_of_pos _ (by simpa using hb)
      rw [h1] at h
      injection h with h2
      subst h2
      rw [if_pos hb]
      exact List.find?_cons_of_pos _ (by simpa using hg b hb)
    · have h1 : List.find? (fun x => decide (q x)) (b :: t) =
          List.find? (fun x => decide (q x)) t :=
        List.find?_cons_of_neg _ (by simpa using hb)
      rw [h1] at h
      rw [if_neg hb]
      rw [List.find?_cons_of_neg _ (by simpa using hb)]
      exact ih h

/-- Go's wrapped 64-bit addition agrees with unbounded addition inside
the representable range. -/
theorem goIntWrap_eq_self (x : Int) (h1 : -(2 ^ 63) ≤ x) (h2 : x < 2 ^ 63) :
    goIntWrap x = x := by
  unfold goIntWrap
  have hmod : (x + 2 ^ 63) % 2 ^ 64 = x + 2 ^ 63 :=
    Int.emod_eq_of_lt (by omega) (by omega)
  omega

/-- The reputation clamp written as nested conditionals equals
`min 1000 (max 0 ·)`. -/
theorem goClamp_eq_min_max (x : Int) :
    goClamp x = min 1000 (max 0 x) := by
  unfold goClamp
  split_ifs <;> omega

/-! ### C10 -/

/-- C10: for every user present in the store and every delta,
`UpdateUserReputation` stores exactly `min 1000 (max 0 (old + delta))`
for that user, so the reputation score always lands in `[0, 1000]`
(stated under the hypothesis that `old + delta` does not overflow the
64-bit `int`, which the program's clamped scores and small constant
deltas guarantee). -/
theorem updateUserReputation_clamps (db db' : DB) (userID : String) (change : Int) (u : User)
    (hfind : db.users.find? (·.id = userID) = some u)
    (h1 : -(2 ^ 63) ≤ u.reputationScore + change)
    (h2 : u.reputationScore + change < 2 ^ 63)
    (hupd : updateUserReputation db userID change = .ok db') :
    db'.users.find? (·.id = userID) =
      some { u with reputationScore := min 1000 (max 0 (u.reputationScore + change)) } := by
  unfold updateUserReputation at hupd
  rw [hfind] at hupd
  injection hupd with hdb
  subst hdb
  have heq : goClamp (goIntWrap (u.reputationScore + change)) =
      min 1000 (max 0 (u.reputationScore + change)) := by
    rw [goIntWrap_eq_self _ h1 h2, goClamp_eq_min_max]
  have hmain := find?_map_update (fun x : User => x.id = userID)
    (fun x => { x with reputationScore := goClamp (goIntWrap (u.reputationScore + change)) })
    db.users u hfind (fun x hx => hx)
  exact hmain.trans (by rw [heq])

/-- Witness for C10 at a concrete store: a user at score 995 given +10
ends at 1000. -/
theorem updateUserReputation_clamps_witness :
    (⟨[], [], [⟨"alice", [], 1000⟩], []⟩ : DB).users.find? (·.id = "alice") =
      some { id := "alice", blockedUsers := [], reputationScore := min 1000 (max 0 (995 + 10)) } :=
  updateUserReputation_clamps ⟨[], [], [⟨"alice", [], 995⟩], []⟩
    ⟨[], [], [⟨"alice", [], 1000⟩], []⟩ "alice" 10
    ⟨"alice", [], 995⟩ (by decide) (by decide) (by decide) rfl

/-! ### C8 -/

/-- C8 counterexample: on a store with no matching row, `GetRoomByID`
and `GetUserByID` answer with error values (`"chat room not found"`,
`"user not found"`), not with a non-error empty result as claimed. -/
theorem notFound_lookup_counterexample :
    getRoomByID DB.empty "r1" = .error "chat room not found" ∧
    getUserByID DB.empty "u1" = .error "user not found" :=
  ⟨rfl, rfl⟩

/-- C8 amended: of the four lookups, `GetActiveRoomIDForUser` and
`FindHistoryByID` report a missing record as an empty result with a nil
error, while `GetRoomByID` and `GetUserByID` report it as a non-nil
error. -/
theorem notFound_lookup_amended (db : DB) (roomID userID uid : String) (histID : Nat)
    (hr : db.rooms.find? (·.roomID = roomID) = none)
    (hu : db.users.find? (·.id = userID) = none)
    (hh : db.histories.find? (·.id = histID) = none)
    (ha : db.rooms.find? (fun r => r.isActive ∧ (r.user1ID = uid ∨ r.user2ID = uid)) = none) :
    getActiveRoomIDForUser db uid = .ok "" ∧
    findHistoryByID db histID = .ok none ∧
    getRoomByID db roomID = .error "chat room not found" ∧
    getUserByID db userID = .error "user not found" := by
  unfold getActiveRoomIDForUser findHistoryByID getRoomByID getUserByID
  rw [hr, hu, hh, ha]
  exact ⟨rfl, rfl, rfl, rfl⟩

/-- Witness for C8's amended statement on the empty store. -/
theorem notFound_lookup_amended_witness :
    getActiveRoomIDForUser DB.empty "u" = .ok "" ∧
    findHistoryByID DB.empty 1 = .ok none ∧
    getRoomByID DB.empty "r" = .error "chat room not found" ∧
    getUserByID DB.empty "u" = .error "user not found" :=
  notFound_lookup_amended DB.empty "r" "u" "u" 1 rfl rfl rfl rfl

/-! ### C9 -/

/-- C9 counterexample: calling `Close` twice on a WebSocket session is
not the same as calling it once — the first call closes the send
channel, the second panics (Go closes an already-closed channel). -/
theorem close_idempotent_counterexample :
    webSocketClientClose ⟨1, "alice", "", Chan.fresh⟩ =
      .ok ⟨1, "alice", "", ⟨true, []⟩⟩ ∧
    (webSocketClientClose ⟨1, "alice", "", Chan.fresh⟩).bind webSocketClientClose =
      .error () :=
  ⟨rfl, rfl⟩

/-- C9 amended: for both session kinds, a first `Close` on an open
session succeeds and closes the outbound channel, and a second `Close`
on the same session fails (run-time panic), so `Close` is safe exactly
once rather than idempotent. -/
theorem close_amended (s : Session) (h : s.send.closed = false) :
    webSocketClientClose s = .ok { s with send := { s.send with closed := true } } ∧
    (webSocketClientClose s).bind webSocketClientClose = .error () ∧
    telegramClientClose s = .ok { s with send := { s.send with closed := true } } ∧
    (telegramClientClose s).bind telegramClientClose = .error () := by
  simp [webSocketClientClose, telegramClientClose, goCloseChan, h, Except.bind]

/-- Witness for C9's amended statement on a fresh session. -/
theorem close_amended_witness :
    webSocketClientClose ⟨2, "bob", "", Chan.fresh⟩ =
      .ok { sid := 2, userID := "bob", roomID := "", send := ⟨true, []⟩ } ∧
    (webSocketClientClose ⟨2, "bob", "", Chan.fresh⟩).bind webSocketClientClose = .error () ∧
    telegramClientClose ⟨2, "bob", "", Chan.fresh⟩ =
      .ok { sid := 2, userID := "bob", roomID := "", send := ⟨true, []⟩ } ∧
    (telegramClientClose ⟨2, "bob", "", Chan.fresh⟩).bind telegramClientClose = .error () :=
  close_amended ⟨2, "bob", "", Chan.fresh⟩ rfl

/-! ### C2 -/

/-- C2 counterexample: room with participants `A` (sender of history
row 1) and `B`; both transport-side ids get stored (`100` for `A`,
`200` for `B`).  `FindPartnerTelegramIDForReply(1, A)` then returns
`A`'s own stored id `100`, not the other participant's id `200` as the
claim states. -/
theorem reply_resolution_counterexample :
    saveTgMessageID ⟨[⟨1, "r1", "A", "hi", "text", "", none, none, none⟩], [], [], []⟩
        1 "A" 100 =
      .ok ⟨[⟨1, "r1", "A", "hi", "text", "", none, some 100, none⟩], [], [], []⟩ ∧
    saveTgMessageID ⟨[⟨1, "r1", "A", "hi", "text", "", none, some 100, none⟩], [], [], []⟩
        1 "B" 200 =
      .ok ⟨[⟨1, "r1", "A", "hi", "text", "", none, some 100, some 200⟩], [], [], []⟩ ∧
    findPartnerTelegramIDForReply
        ⟨[⟨1, "r1", "A", "hi", "text", "", none, some 100, some 200⟩], [], [], []⟩ 1 "A" =
      .ok (some 100) ∧
    (100 : Nat) ≠ 200 := by
  refine ⟨rfl, rfl, rfl, by decide⟩

/-- C2 amended: after both participants' transport ids are stored,
`FindPartnerTelegramIDForReply(m.id, p)` returns the transport id that
was stored via `SaveTgMessageID` for `p` itself — the current
recipient's own copy of the row — not the other participant's. -/
theorem saveTgMessageID_of_found (db : DB) (m : Nat) (anonID : String) (tg : Nat)
    (h : ChatHistory) (hfind : db.histories.find? (·.id = m) = some h) :
    saveTgMessageID db m anonID tg = .ok { db with histories := db.histories.map (fun x =>
      if x.id = m then (if h.senderID = anonID then { h with tgMessageIDSender := some tg }
        else { h with tgMessageIDReceiver := some tg }) else x) } := by
  unfold saveTgMessageID
  rw [hfind]

theorem findPartnerTelegramIDForReply_of_found (db : DB) (m : Nat) (p : String)
    (h : ChatHistory) (hfind : db.histories.find? (·.id = m) = some h) :
    findPartnerTelegramIDForReply db m p =
      if h.senderID = p then .ok h.tgMessageIDSender else .ok h.tgMessageIDReceiver := by
  unfold findPartnerTelegramIDForReply
  rw [hfind]

theorem reply_resolution_amended (db dba dbb : DB) (m : Nat) (h : ChatHistory) (a b : String)
    (ta tb : Nat)
    (hfind : db.histories.find? (·.id = m) = some h)
    (hsender : h.senderID = a) (hne : ¬ b = a)
    (hsave1 : saveTgMessageID db m a ta = .ok dba)
    (hsave2 : saveTgMessageID dba m b tb = .ok dbb) :
    findPartnerTelegramIDForReply dbb m a = .ok (some ta) ∧
    findPartnerTelegramIDForReply dbb m b = .ok (some tb) := by
  have hidm : h.id = m := by simpa using List.find?_some hfind
  have hsa : ({ h with tgMessageIDSender := some ta } : ChatHistory).senderID = a := hsender
  have hsab : ({ h with tgMessageIDSender := some ta, tgMessageIDReceiver := some tb } :
      ChatHistory).senderID = a := hsender
  have hnsb : ¬ ({ h with tgMessageIDSender := some ta } : ChatHistory).senderID = b :=
    fun hc => hne (hsa.symm.trans hc).symm
  have hnsab : ¬ ({ h with tgMessageIDSender := some ta, tgMessageIDReceiver := some tb } :
      ChatHistory).senderID = b :=
    fun hc => hne (hsab.symm.trans hc).symm
  have hfind1 : (db.histories.map (fun x => if x.id = m then
        { h with tgMessageIDSender := some ta } else x)).find? (·.id = m) =
      some { h with tgMessageIDSender := some ta } := by
    simpa using find?_map_update (fun x : ChatHistory => x.id = m)
      (fun _ => { h with tgMessageIDSender := some ta }) db.histories h hfind
      (fun x hx => hidm)
  have hfind2 : ((db.histories.map (fun x => if x.id = m then
        { h with tgMessageIDSender := some ta } else x)).map (fun x => if x.id = m then
        { h with tgMessageIDSender := some ta, tgMessageIDReceiver := some tb } else x)).find?
        (·.id = m) =
      some { h with tgMessageIDSender := some ta, tgMessageIDReceiver := some tb } := by
    simpa using find?_map_update (fun x : ChatHistory => x.id = m)
      (fun _ => { h with tgMessageIDSender := some ta, tgMessageIDReceiver := some tb })
      _ _ hfind1 (fun x hx => hidm)
  have heq1 : dba = { db with histories := db.histories.map (fun x => if x.id = m then
      { h with tgMessageIDSender := some ta } else x) } := by
    have := (saveTgMessageID_of_found db m a ta h hfind).symm.trans hsave1
    rw [if_pos hsender] at this
    injection this with hd
    exact hd.symm
  subst heq1
  have heq2 : dbb = { db with histories := (db.histories.map (fun x => if x.id = m then
      { h with tgMessageIDSender := some ta } else x)).map (fun x => if x.id = m then
      { h with tgMessageIDSender := some ta, tgMessageIDReceiver := some tb } else x) } := by
    have := (saveTgMessageID_of_found _ m b tb _ hfind1).symm.trans hsave2
    rw [if_neg hnsb] at this
    injection this with hd
    exact hd.symm
  subst heq2
  constructor
  · rw [findPartnerTelegramIDForReply_of_found _ m a _ hfind2, if_pos hsab]
  · rw [findPartnerTelegramIDForReply_of_found _ m b _ hfind2, if_neg hnsab]

/-- Witness for C2's amended statement on the concrete two-party row. -/
theorem reply_resolution_amended_witness :
    findPartnerTelegramIDForReply
        ⟨[⟨1, "r1", "A", "hi", "text", "", none, some 100, some 200⟩], [], [], []⟩ 1 "A" =
      .ok (some 100) ∧
    findPartnerTelegramIDForReply
        ⟨[⟨1, "r1", "A", "hi", "text", "", none, some 100, some 200⟩], [], [], []⟩ 1 "B" =
      .ok (some 200) :=
  reply_resolution_amended ⟨[⟨1, "r1", "A", "hi", "text", "", none, none, none⟩], [], [], []⟩
    ⟨[⟨1, "r1", "A", "hi", "text", "", none, some 100, none⟩], [], [], []⟩
    ⟨[⟨1, "r1", "A", "hi", "text", "", none, some 100, some 200⟩], [], [], []⟩
    1 ⟨1, "r1", "A", "hi", "text", "", none, none, none⟩ "A" "B" 100 200
    rfl rfl (by decide) rfl rfl

/-! ### Client-table lemmas -/

/-- Updating the session stored under one user id leaves lookups of any
other user id unchanged. -/
theorem lookupClient_update_ne (cs : ClientsMap) (u v : String) (f : Session → Session)
    (h : ¬ v = u) : lookupClient (updateClient cs u f) v = lookupClient cs v := by
  induction cs with
  | nil => rfl
  | cons p t ih =>
    unfold updateClient at ih ⊢
    unfold lookupClient at ih ⊢
    simp only [List.map_cons]
    by_cases hp : p.1 = u
    · have hnv : ¬ p.1 = v := fun hc => h ((hp.symm.trans hc).symm)
      rw [if_pos hp]
      rw [List.find?_cons_of_neg _ (by simpa using hnv)]
      rw [List.find?_cons_of_neg _ (by simpa using hnv)]
      exact ih
    · rw [if_neg hp]
      by_cases hv : p.1 = v
      · rw [List.find?_cons_of_pos _ (by simpa using hv),
          List.find?_cons_of_pos _ (by simpa using hv)]
      · rw [List.find?_cons_of_neg _ (by simpa using hv),
          List.find?_cons_of_neg _ (by simpa using hv)]
        exact ih

/-- Updating the session stored under a user id updates what a lookup of
that id returns. -/
theorem lookupClient_update_self (cs : ClientsMap) (u : String) (f : Session → Session)
    (s : Session) (h : lookupClient cs u = some s) :
    lookupClient (updateClient cs u f) u = some (f s) := by
  induction cs with
  | nil => simp [lookupClient, List.find?] at h
  | cons p t ih =>
    unfold updateClient at ih ⊢
    unfold lookupClient at ih h ⊢
    simp only [List.map_cons]
    by_cases hp : p.1 = u
    · rw [List.find?_cons_of_pos _ (by simpa using hp)] at h
      simp only [Option.map] at h
      injection h with h2
      rw [if_pos hp]
      rw [List.find?_cons_of_pos _ (by simpa using hp)]
      simp [Option.map, h2]
    · rw [List.find?_cons_of_neg _ (by simpa using hp)] at h
      rw [if_neg hp]
      rw [List.find?_cons_of_neg _ (by simpa using hp)]
      exact ih h

/-- Looking up a user id after a `sendToClient` to that same id appends
the message to the stored session's channel buffer. -/
theorem lookupClient_sendToClient_self (cs : ClientsMap) (u : String) (m : ChatMessage)
    (s : Session) (h : lookupClient cs u = some s) :
    lookupClient (sendToClient cs u m) u = some { s with send := chanSend s.send m } :=
  lookupClient_update_self cs u _ s h

/-! ### C7 -/

/-- C7 counterexample: the table stores session 2 for user `bob`;
unregistering a *different* session (identity 1) of the same user is not
ignored — the stored session 2 is still removed from the table and the
arriving session's channel is closed. -/
theorem unregister_counterexample :
    handleUnregister [("bob", ⟨2, "bob", "", Chan.fresh⟩)] ⟨1, "bob", "", Chan.fresh⟩ =
      some ([], ⟨1, "bob", "", ⟨true, []⟩⟩) ∧
    (⟨1, "bob", "", Chan.fresh⟩ : Session) ≠ ⟨2, "bob", "", Chan.fresh⟩ :=
  ⟨rfl, by decide⟩

/-- C7 amended: `handleUnregister` removes the stored session whenever
*any* session is stored under the unregistering client's user id — no
identity comparison is made — and closes the arriving client's own send
channel; when no session is stored under that id nothing happens. -/
theorem unregister_amended (cs : ClientsMap) (c s : Session)
    (hs : lookupClient cs c.userID = some s) (hopen : c.send.closed = false) :
    handleUnregister cs c =
      some (eraseClient cs c.userID, { c with send := { c.send with closed := true } }) := by
  unfold handleUnregister
  rw [hs]
  simp [goCloseChan, hopen]

/-- Witness for C7's amended statement on a one-entry table holding a
*different* session object (identity 9) of the same user. -/
theorem unregister_amended_witness :
    handleUnregister [("eve", ⟨9, "eve", "", Chan.fresh⟩)] ⟨7, "eve", "", Chan.fresh⟩ =
      some (eraseClient [("eve", ⟨9, "eve", "", Chan.fresh⟩)] "eve",
        ⟨7, "eve", "", ⟨true, []⟩⟩) :=
  unregister_amended [("eve", ⟨9, "eve", "", Chan.fresh⟩)] ⟨7, "eve", "", Chan.fresh⟩
    ⟨9, "eve", "", Chan.fresh⟩ rfl rfl

/-! ### C6 -/

/-- C6 counterexample: the sender's session is in room `r1`, yet
`command_start` still forwards a `SearchRequest` to the Matcher and
pushes `system_search_start` — there is no `already_in_chat` guard. -/
theorem start_command_counterexample :
    (handleIncomingMessage [("A", ⟨1, "A", "r1", Chan.fresh⟩)] DB.empty 0 true
        { ChatMessage.zero with type := "command_start", senderID := "A" }).matchRequests =
      ["A"] ∧
    (handleIncomingMessage [("A", ⟨1, "A", "r1", Chan.fresh⟩)] DB.empty 0 true
        { ChatMessage.zero with type := "command_start", senderID := "A" }).clients =
      [("A", ⟨1, "A", "r1", ⟨false, [searchStartMsg]⟩⟩)] :=
  ⟨rfl, rfl⟩

/-- C6 amended: on `command_start` the hub unconditionally forwards
exactly one `SearchRequest` for the sender to the Matcher and pushes a
`system_search_start` notice to the sender's local session if one is
connected, even when the sender already has a room; no `already_in_chat`
reply exists in this path and nothing is saved or published. -/
theorem start_command_amended (cs : ClientsMap) (db : DB) (now : Int) (saveOk : Bool)
    (msg : ChatMessage) (hstart : msg.type = "command_start") :
    handleIncomingMessage cs db now saveOk msg =
      ⟨if (lookupClient cs msg.senderID).isSome then
          sendToClient cs msg.senderID searchStartMsg else cs,
        db, [], [msg.senderID], []⟩ := by
  unfold handleIncomingMessage
  rw [if_pos hstart]

/-- Witness for C6's amended statement: a sender already in a room. -/
theorem start_command_amended_witness :
    handleIncomingMessage [("C", ⟨3, "C", "r9", Chan.fresh⟩)] DB.empty 0 true
        { ChatMessage.zero with type := "command_start", senderID := "C" } =
      ⟨if (lookupClient [("C", ⟨3, "C", "r9", Chan.fresh⟩)] "C").isSome then
          sendToClient [("C", ⟨3, "C", "r9", Chan.fresh⟩)] "C" searchStartMsg
        else [("C", ⟨3, "C", "r9", Chan.fresh⟩)],
        DB.empty, [], ["C"], []⟩ :=
  start_command_amended [("C", ⟨3, "C", "r9", Chan.fresh⟩)] DB.empty 0 true
    { ChatMessage.zero with type := "command_start", senderID := "C" } rfl

/-! ### C1 -/

/-- C1: for every regular content message (not a command) routed by
`handleIncomingMessage`, the message is saved first (the store grows by
one row whose id is the fresh serial id), that id is written into the
in-memory message, and the published bus frame carries exactly that
updated message, whose id is positive; when the save fails nothing is
published and the store is unchanged. -/
theorem save_before_publish (cs : ClientsMap) (db : DB) (now : Int) (saveOk : Bool)
    (msg : ChatMessage)
    (h1 : ¬ msg.type = "command_start") (h2 : ¬ msg.type = "command_stop")
    (h3 : ¬ msg.type = "command_next") (h4 : ¬ msg.type = "command_report") :
    (saveOk = true →
      handleIncomingMessage cs db now saveOk msg =
        ⟨cs, (saveMessage db msg).1,
          [((saveMessage db msg).2.roomID, (saveMessage db msg).2)], [], []⟩ ∧
      (saveMessage db msg).2.id = db.histories.length + 1 ∧
      0 < (saveMessage db msg).2.id ∧
      (saveMessage db msg).1.histories =
        db.histories ++ [⟨db.histories.length + 1, msg.roomID, msg.senderID, msg.content,
          msg.type, msg.metadata, msg.replyToMessageID, msg.tgMessageIDSender, none⟩]) ∧
    (saveOk = false →
      handleIncomingMessage cs db now saveOk msg = ⟨cs, db, [], [], []⟩) := by
  have hor : ¬ (msg.type = "command_stop" ∨ msg.type = "command_next") :=
    fun hc => hc.elim h2 h3
  unfold handleIncomingMessage
  rw [if_neg h1, if_neg hor, if_neg h4]
  constructor
  · intro hs
    subst hs
    rw [if_pos rfl]
    exact ⟨rfl, rfl, Nat.succ_pos _, rfl⟩
  · intro hs
    subst hs
    rw [if_neg (by simp)]

/-- Witness for C1 on a concrete text message with a succeeding save. -/
theorem save_before_publish_witness :
    ((true : Bool) = true →
      handleIncomingMessage [] DB.empty 0 true
          { ChatMessage.zero with type := "text", senderID := "A", roomID := "r1", content := "hi" } =
        ⟨[], (saveMessage DB.empty
            { ChatMessage.zero with type := "text", senderID := "A", roomID := "r1", content := "hi" }).1,
          [((saveMessage DB.empty
            { ChatMessage.zero with type := "text", senderID := "A", roomID := "r1", content := "hi" }).2.roomID,
            (saveMessage DB.empty
            { ChatMessage.zero with type := "text", senderID := "A", roomID := "r1", content := "hi" }).2)],
          [], []⟩ ∧
      (saveMessage DB.empty
        { ChatMessage.zero with type := "text", senderID := "A", roomID := "r1", content := "hi" }).2.id =
        DB.empty.histories.length + 1 ∧
      0 < (saveMessage DB.empty
        { ChatMessage.zero with type := "text", senderID := "A", roomID := "r1", content := "hi" }).2.id ∧
      (saveMessage DB.empty
        { ChatMessage.zero with type := "text", senderID := "A", roomID := "r1", content := "hi" }).1.histories =
        DB.empty.histories ++ [⟨DB.empty.histories.length + 1, "r1", "A", "hi", "text", "", none, none, none⟩]) ∧
    ((true : Bool) = false →
      handleIncomingMessage [] DB.empty 0 true
          { ChatMessage.zero with type := "text", senderID := "A", roomID := "r1", content := "hi" } =
        ⟨[], DB.empty, [], [], []⟩) :=
  save_before_publish [] DB.empty 0 true
    { ChatMessage.zero with type := "text", senderID := "A", roomID := "r1", content := "hi" }
    (by decide) (by decide) (by decide) (by decide)

/-! ### C3 -/

/-- C3: whenever `FindMatch` selects a candidate `t` for the requester,
`t` is not the requester, neither side has blocked the other, and the
only room created is the fresh active room pairing the requester with
exactly that candidate — so blocked pairs and self-pairs never get a
room or a `match_found`. -/
theorem matcher_no_self_no_blocked (queue : List String) (users : String → User)
    (cs : ClientsMap) (db : DB) (now : Int) (rid reqUser t : String)
    (h : findMatchCandidate queue users reqUser = some t) :
    ¬ t = reqUser ∧
    ¬ (users reqUser).blockedUsers.contains t ∧
    ¬ (users t).blockedUsers.contains reqUser ∧
    (findMatch queue users cs db now rid reqUser).roomsCreated =
      [⟨rid, reqUser, t, true, now, 0⟩] := by
  have hrooms : (findMatch queue users cs db now rid reqUser).roomsCreated =
      [⟨rid, reqUser, t, true, now, 0⟩] := by
    unfold findMatch
    rw [h]
  unfold findMatchCandidate at h
  have hq := List.find?_some h
  have hp : ¬ t = reqUser ∧ ¬ (users reqUser).blockedUsers.contains t ∧
      ¬ (users t).blockedUsers.contains reqUser := of_decide_eq_true hq
  exact ⟨hp.1, hp.2.1, hp.2.2, hrooms⟩

/-- Witness for C3 on a two-member queue with no blocks. -/
theorem matcher_no_self_no_blocked_witness :
    ¬ "B" = "A" ∧
    ¬ ((fun u => (⟨u, [], 0⟩ : User)) "A").blockedUsers.contains "B" ∧
    ¬ ((fun u => (⟨u, [], 0⟩ : User)) "B").blockedUsers.contains "A" ∧
    (findMatch ["B"] (fun u => (⟨u, [], 0⟩ : User)) [] DB.empty 5 "room1" "A").roomsCreated =
      [⟨"room1", "A", "B", true, 5, 0⟩] :=
  matcher_no_self_no_blocked ["B"] (fun u => (⟨u, [], 0⟩ : User)) [] DB.empty 5 "room1"
    "A" "B" rfl

/-! ### Stop-command lemmas -/

/-- A successful `GetRoomByID` means the room is the first stored row
with that room id. -/
theorem getRoomByID_ok (db : DB) (r : String) (room : ChatRoom)
    (h : getRoomByID db r = .ok room) :
    db.rooms.find? (·.roomID = r) = some room := by
  unfold getRoomByID at h
  cases hf : db.rooms.find? (·.roomID = r) with
  | none => rw [hf] at h; exact Except.noConfusion h
  | some x => rw [hf] at h; injection h with h2; rw [h2]

/-- `handleStopCommand` on a found room, written out: notify the two
local sessions, close the room, re-queue on `command_next`, apply the
heuristic's reputation updates; nothing is published. -/
theorem handleStopCommand_of_found (cs : ClientsMap) (db : DB) (now : Int)
    (msg : ChatMessage) (room : ChatRoom) (hne : ¬ msg.roomID = "")
    (hroom : getRoomByID db msg.roomID = .ok room) :
    handleStopCommand cs db now msg =
      ⟨stopNotifyClients cs
          (if msg.senderID = room.user1ID then room.user2ID else room.user1ID) msg.senderID,
        applyRepUpdates (closeRoom db msg.roomID now)
          (dialogQualityUpdates (closeRoom db msg.roomID now) room now msg),
        [],
        if msg.type = "command_next" then [msg.senderID] else [],
        dialogQualityUpdates (closeRoom db msg.roomID now) room now msg⟩ := by
  unfold handleStopCommand
  rw [if_neg hne, hroom]

/-- `stopNotifyPartner` with a connected partner updates that session. -/
theorem stopNotifyPartner_of_found (cs : ClientsMap) (pid : String) (pc : Session)
    (h : lookupClient cs pid = some pc) :
    stopNotifyPartner cs pid = updateClient cs pid
      (fun s => { s with send := chanSend s.send stopPartnerMsg, roomID := "" }) := by
  unfold stopNotifyPartner
  rw [h]
  simp

/-- `stopNotifySender` with a connected sender updates that session. -/
theorem stopNotifySender_of_found (cs : ClientsMap) (sid : String) (sc : Session)
    (h : lookupClient cs sid = some sc) :
    stopNotifySender cs sid = updateClient cs sid
      (fun s => { s with send := chanSend s.send stopSelfMsg, roomID := "" }) := by
  unfold stopNotifySender
  rw [h]
  simp

/-- A successful `UpdateUserReputation` only rewrites user rows. -/
theorem updateUserReputation_ok_rooms (db : DB) (u : String) (c : Int) (db' : DB)
    (h : updateUserReputation db u c = .ok db') : db'.rooms = db.rooms := by
  unfold updateUserReputation at h
  cases hf : db.users.find? (·.id = u) with
  | none => rw [hf] at h; exact Except.noConfusion h
  | some x =>
    rw [hf] at h
    injection h with h2
    rw [← h2]

/-- Applying reputation updates never touches the room table. -/
theorem applyRepUpdates_rooms (ups : List (String × Int)) (db : DB) :
    (applyRepUpdates db ups).rooms = db.rooms := by
  induction ups generalizing db with
  | nil => rfl
  | cons p t ih =>
    have hstep : (match updateUserReputation db p.1 p.2 with
        | .error _ => db | .ok d' => d').rooms = db.rooms := by
      cases hu : updateUserReputation db p.1 p.2 with
      | error e => rfl
      | ok d' => exact updateUserReputation_ok_rooms db p.1 p.2 d' hu
    calc (applyRepUpdates db (p :: t)).rooms
        = (applyRepUpdates (match updateUserReputation db p.1 p.2 with
            | .error _ => db | .ok d' => d') t).rooms := rfl
      _ = _ := by rw [ih, hstep]

/-! ### C4 -/

/-- C4 counterexample: sender `A` has room `r1` with partner `B` (both
locally connected, the room exists in the store), yet `handleStopCommand`
publishes nothing at all on the bus — the `stop_partner` notice is only
delivered to a locally connected partner. -/
theorem stop_bus_publish_counterexample :
    (handleStopCommand
        [("A", ⟨1, "A", "r1", Chan.fresh⟩), ("B", ⟨2, "B", "r1", Chan.fresh⟩)]
        ⟨[], [⟨"r1", "A", "B", true, 0, 0⟩], [], []⟩ 0 stopMsgFromA).published = [] ∧
    getRoomByID ⟨[], [⟨"r1", "A", "B", true, 0, 0⟩], [], []⟩ "r1" =
      .ok ⟨"r1", "A", "B", true, 0, 0⟩ :=
  ⟨rfl, rfl⟩

/-- C4 amended: on `command_stop` from a sender whose message carries a
room id, the hub pushes `stop_self` to the sender's local session and
`stop_partner` directly to the local session of the partner — the room
member on the side opposite the sender, `user2` when the sender is
`user1` and `user1` otherwise, exactly the code's selection — with no
bus publish (so a partner on another instance is not notified), clears
both local sessions' room ids, and closes the room in persistence.
Stated for any sender orientation: the partner is everywhere the code's
`if msg.senderID = room.user1ID then room.user2ID else room.user1ID`. -/
theorem stop_command_amended (cs : ClientsMap) (db : DB) (now : Int) (msg : ChatMessage)
    (room : ChatRoom) (pc sc : Session)
    (htype : msg.type = "command_stop")
    (hne : ¬ msg.roomID = "")
    (hroom : getRoomByID db msg.roomID = .ok room)
    (hdistinct : ¬ msg.senderID =
      (if msg.senderID = room.user1ID then room.user2ID else room.user1ID))
    (hpc : lookupClient cs
      (if msg.senderID = room.user1ID then room.user2ID else room.user1ID) = some pc)
    (hsc : lookupClient cs msg.senderID = some sc) :
    (handleStopCommand cs db now msg).published = [] ∧
    (handleStopCommand cs db now msg).matchRequests = [] ∧
    lookupClient (handleStopCommand cs db now msg).clients
      (if msg.senderID = room.user1ID then room.user2ID else room.user1ID) =
      some { pc with send := chanSend pc.send stopPartnerMsg, roomID := "" } ∧
    lookupClient (handleStopCommand cs db now msg).clients msg.senderID =
      some { sc with send := chanSend sc.send stopSelfMsg, roomID := "" } ∧
    (handleStopCommand cs db now msg).db.rooms.find? (·.roomID = msg.roomID) =
      some { room with isActive := false, endedAt := now } := by
  have hnn : ¬ msg.type = "command_next" := by rw [htype]; decide
  rw [handleStopCommand_of_found cs db now msg room hne hroom]
  have hcs : stopNotifyClients cs
      (if msg.senderID = room.user1ID then room.user2ID else room.user1ID) msg.senderID =
      updateClient (updateClient cs
        (if msg.senderID = room.user1ID then room.user2ID else room.user1ID)
        (fun s => { s with send := chanSend s.send stopPartnerMsg, roomID := "" }))
        msg.senderID (fun s => { s with send := chanSend s.send stopSelfMsg, roomID := "" }) := by
    unfold stopNotifyClients
    rw [stopNotifyPartner_of_found cs _ pc hpc]
    rw [stopNotifySender_of_found _ msg.senderID sc]
    rw [lookupClient_update_ne cs _ msg.senderID _ hdistinct]
    exact hsc
  refine ⟨rfl, ?_, ?_, ?_, ?_⟩
  · show (if msg.type = "command_next" then [msg.senderID] else []) = []
    rw [if_neg hnn]
  · show lookupClient (stopNotifyClients cs
        (if msg.senderID = room.user1ID then room.user2ID else room.user1ID) msg.senderID)
        (if msg.senderID = room.user1ID then room.user2ID else room.user1ID) = _
    rw [hcs]
    rw [lookupClient_update_ne _ msg.senderID
      (if msg.senderID = room.user1ID then room.user2ID else room.user1ID) _
      (fun hc => hdistinct hc.symm)]
    exact lookupClient_update_self cs _ _ pc hpc
  · show lookupClient (stopNotifyClients cs
        (if msg.senderID = room.user1ID then room.user2ID else room.user1ID) msg.senderID)
        msg.senderID = _
    rw [hcs]
    refine lookupClient_update_self _ msg.senderID _ sc ?_
    rw [lookupClient_update_ne cs _ msg.senderID _ hdistinct]
    exact hsc
  · show ((applyRepUpdates (closeRoom db msg.roomID now)
        (dialogQualityUpdates (closeRoom db msg.roomID now) room now msg)).rooms.find?
        (·.roomID = msg.roomID)) = _
    rw [applyRepUpdates_rooms]
    have hfr := getRoomByID_ok db msg.roomID room hroom
    unfold closeRoom
    simpa using find?_map_update (fun r : ChatRoom => r.roomID = msg.roomID)
      (fun r => { r with isActive := false, endedAt := now }) db.rooms room hfr
      (fun x hx => hx)

/-- Witness for C4's amended statement on the concrete two-member room,
with the stop issued by `B` — the room's *second* member — so the code's
`partnerID = room.User1ID` branch is the one exercised. -/
theorem stop_command_amended_witness :
    (handleStopCommand
        [("A", ⟨1, "A", "r1", Chan.fresh⟩), ("B", ⟨2, "B", "r1", Chan.fresh⟩)]
        ⟨[], [⟨"r1", "A", "B", true, 0, 0⟩], [], []⟩ 7 stopMsgFromB).published = [] ∧
    (handleStopCommand
        [("A", ⟨1, "A", "r1", Chan.fresh⟩), ("B", ⟨2, "B", "r1", Chan.fresh⟩)]
        ⟨[], [⟨"r1", "A", "B", true, 0, 0⟩], [], []⟩ 7 stopMsgFromB).matchRequests = [] ∧
    lookupClient (handleStopCommand
        [("A", ⟨1, "A", "r1", Chan.fresh⟩), ("B", ⟨2, "B", "r1", Chan.fresh⟩)]
        ⟨[], [⟨"r1", "A", "B", true, 0, 0⟩], [], []⟩ 7 stopMsgFromB).clients "A" =
      some ⟨1, "A", "", chanSend Chan.fresh stopPartnerMsg⟩ ∧
    lookupClient (handleStopCommand
        [("A", ⟨1, "A", "r1", Chan.fresh⟩), ("B", ⟨2, "B", "r1", Chan.fresh⟩)]
        ⟨[], [⟨"r1", "A", "B", true, 0, 0⟩], [], []⟩ 7 stopMsgFromB).clients
        stopMsgFromB.senderID =
      some ⟨2, "B", "", chanSend Chan.fresh stopSelfMsg⟩ ∧
    (handleStopCommand
        [("A", ⟨1, "A", "r1", Chan.fresh⟩), ("B", ⟨2, "B", "r1", Chan.fresh⟩)]
        ⟨[], [⟨"r1", "A", "B", true, 0, 0⟩], [], []⟩ 7 stopMsgFromB).db.rooms.find?
        (·.roomID = stopMsgFromB.roomID) =
      some ⟨"r1", "A", "B", false, 0, 7⟩ :=
  stop_command_amended
    [("A", ⟨1, "A", "r1", Chan.fresh⟩), ("B", ⟨2, "B", "r1", Chan.fresh⟩)]
    ⟨[], [⟨"r1", "A", "B", true, 0, 0⟩], [], []⟩ 7 stopMsgFromB
    ⟨"r1", "A", "B", true, 0, 0⟩ ⟨1, "A", "r1", Chan.fresh⟩ ⟨2, "B", "r1", Chan.fresh⟩
    rfl (by decide) rfl (by decide) rfl rfl

/-! ### C5 -/

/-- C5 counterexample: room of exactly `SUCCESSFUL_DURATION` wall-clock
age (10 minutes = 600000000000 ns), ten messages from each party and no
complaints.  The claim ("duration at least `SUCCESSFUL_DURATION`")
predicts both parties are rewarded, but the code's strict
`time.Since(...) > SuccessfulDialogDuration` comparison applies no
reputation update at all. -/
theorem dialog_quality_counterexample :
    (handleStopCommand [] dialogDB 600000000000 stopMsgFromA).repUpdates = [] ∧
    getComplaintsForUser dialogDB "A" 0 = [] ∧
    getComplaintsForUser dialogDB "B" 0 = [] ∧
    (getChatHistory dialogDB "r1").countP (·.senderID = "A") = 10 ∧
    (getChatHistory dialogDB "r1").countP (fun h => ¬ h.senderID = "A") = 10 ∧
    (600000000000 : Int) - 0 ≥ successfulDialogDuration :=
  ⟨rfl, rfl, rfl, by decide, by decide, by decide⟩

/-- C5 amended: with no complaints about either party, if the room's
wall-clock duration is *strictly greater than* `SUCCESSFUL_DURATION`
and each party sent at least `SUCCESSFUL_MESSAGES` messages, both
parties get `+SUCCESSFUL_REWARD`; else if the duration is below
`EARLY_DISCONNECT_DURATION` and the party other than the stop initiator
sent fewer than `EARLY_DISCONNECT_MESSAGES` messages, the initiator
gets `EARLY_DISCONNECT_PENALTY` (defaults 10 min / 10 msgs / +1 and
2 min / 2 msgs / -1). -/
theorem dialog_quality_amended (cs : ClientsMap) (db : DB) (now : Int) (msg : ChatMessage)
    (room : ChatRoom)
    (hne : ¬ msg.roomID = "")
    (hroom : getRoomByID db msg.roomID = .ok room)
    (hc1 : getComplaintsForUser db room.user1ID room.startedAt = [])
    (hc2 : getComplaintsForUser db room.user2ID room.startedAt = []) :
    (now - room.startedAt > successfulDialogDuration →
      (getChatHistory db msg.roomID).countP (·.senderID = room.user1ID) ≥
        successfulDialogMessages →
      (getChatHistory db msg.roomID).countP (fun h => ¬ h.senderID = room.user1ID) ≥
        successfulDialogMessages →
      (handleStopCommand cs db now msg).repUpdates =
        [(room.user1ID, successfulDialogReward), (room.user2ID, successfulDialogReward)]) ∧
    (¬ now - room.startedAt > successfulDialogDuration →
      now - room.startedAt < earlyDisconnectDuration →
      (getChatHistory db msg.roomID).countP
        (·.senderID = (if msg.senderID = room.user1ID then room.user2ID else room.user1ID)) <
        earlyDisconnectMessages →
      (handleStopCommand cs db now msg).repUpdates = [(msg.senderID, earlyDisconnectPenalty)]) := by
  have hrep : (handleStopCommand cs db now msg).repUpdates =
      dialogQualityUpdates (closeRoom db msg.roomID now) room now msg := by
    rw [handleStopCommand_of_found cs db now msg room hne hroom]
  have hc1' : getComplaintsForUser (closeRoom db msg.roomID now) room.user1ID
      room.startedAt = [] := hc1
  have hc2' : getComplaintsForUser (closeRoom db msg.roomID now) room.user2ID
      room.startedAt = [] := hc2
  have hlen : (getComplaintsForUser (closeRoom db msg.roomID now) room.user1ID
        room.startedAt).length = 0 ∧
      (getComplaintsForUser (closeRoom db msg.roomID now) room.user2ID
        room.startedAt).length = 0 := by
    rw [hc1', hc2']
    exact ⟨rfl, rfl⟩
  constructor
  · intro hd hm1 hm2
    rw [hrep]
    unfold dialogQualityUpdates
    rw [if_pos hlen, if_pos hd, if_pos ?hm]
    case hm => exact ⟨hm1, hm2⟩
  · intro hnd hd2 hm
    rw [hrep]
    unfold dialogQualityUpdates
    rw [if_pos hlen, if_neg hnd, if_pos hd2, if_pos ?hm2]
    case hm2 => exact hm

/-- Witness for C5's amended statement: a room older than the success
threshold with ten messages from each side and no complaints. -/
theorem dialog_quality_amended_witness :
    ((600000000001 : Int) - 0 > successfulDialogDuration →
      (getChatHistory dialogDB stopMsgFromA.roomID).countP (·.senderID = "A") ≥
        successfulDialogMessages →
      (getChatHistory dialogDB stopMsgFromA.roomID).countP (fun h => ¬ h.senderID = "A") ≥
        successfulDialogMessages →
      (handleStopCommand [] dialogDB 600000000001 stopMsgFromA).repUpdates =
        [("A", successfulDialogReward), ("B", successfulDialogReward)]) ∧
    (¬ (600000000001 : Int) - 0 > successfulDialogDuration →
      (600000000001 : Int) - 0 < earlyDisconnectDuration →
      (getChatHistory dialogDB stopMsgFromA.roomID).countP
        (·.senderID = (if stopMsgFromA.senderID = "A" then "B" else "A")) <
        earlyDisconnectMessages →
      (handleStopCommand [] dialogDB 600000000001 stopMsgFromA).repUpdates =
        [(stopMsgFromA.senderID, earlyDisconnectPenalty)]) :=
  dialog_quality_amended [] dialogDB 600000000001 stopMsgFromA ⟨"r1", "A", "B", true, 0, 0⟩
    (by decide) rfl rfl rfl

end ChatGoGo
